import Mathlib

/-!
Shallow embedding of the MoodTune playback core:
the playback queue manager (frontend/contexts/MusicPlayerContext.tsx),
the mood-session handlers of the home view (the HomeAfterLogin component),
and the provider resolver (the getEmbedUrl function of the MusicPlayer
component).  TypeScript optional string fields become Option String;
JavaScript truthiness of such a value (undefined and the empty string are
falsy) is modelled by the predicate truthy below.
-/

namespace MoodTune

/-- JavaScript truthiness of a value of type string-or-undefined:
undefined and the empty string are falsy. -/
def truthy : Option String → Bool
  | none => false
  | some s => s != ""

/-- The JavaScript expression a OR b on string-or-undefined values:
the raw value of a when a is truthy, otherwise the raw value of b. -/
def jsOr (a b : Option String) : Option String :=
  if truthy a then a else b

/-- The Song record of MusicPlayerContext.tsx. -/
structure Song where
  id : Option String := none
  title : String
  artist : String
  album : Option String := none
  spotifyUri : Option String := none
  spotifyId : Option String := none
  url : Option String := none
  imageUrl : Option String := none
  source : String
deriving DecidableEq, Repr

/-- Composite key of a queue entry: the JavaScript expression
(s.id OR s.spotifyUri OR s.url), evaluated left to right. -/
def songKey (s : Song) : Option String :=
  jsOr (jsOr s.id s.spotifyUri) s.url

/-- The predicate passed to findIndex in playNext and playPrevious:
the composite key of the entry strictly equals the given key. -/
def keyMatches (k : Option String) (s : Song) : Bool :=
  songKey s == k

/-- First index at which the predicate holds, as an Option. -/
def findIdxOpt {α : Type} (p : α → Bool) : List α → Option Nat
  | [] => none
  | x :: xs => if p x then some 0 else (findIdxOpt p xs).map (· + 1)

/-- JavaScript Array.prototype.findIndex: the first matching index,
or -1 when no element matches. -/
def findIdxJS {α : Type} (p : α → Bool) (l : List α) : Int :=
  match findIdxOpt p l with
  | some i => (i : Int)
  | none => -1

/-- The React state owned by MusicPlayerProvider. -/
structure PlayerState where
  currentSong : Option Song
  showPlayer : Bool
  playQueue : List Song
deriving DecidableEq, Repr

/-- Initial state of MusicPlayerProvider: no current song, player hidden,
empty queue. -/
def initialPlayerState : PlayerState :=
  { currentSong := none, showPlayer := false, playQueue := [] }

/-- The playSong handler: setCurrentSong(song), setPlayQueue(queue) with
queue defaulting to the empty list, setShowPlayer(true).  The
sessionStorage write it also performs does not touch React state. -/
def playSong (st : PlayerState) (song : Song) (queue : List Song) : PlayerState :=
  { st with currentSong := some song, playQueue := queue, showPlayer := true }

/-- The playNext handler: return early when there is no current song or
the queue is empty; otherwise find the current index by composite key and,
when it is below length - 1, set the current song to the entry at index
plus one. -/
def playNext (st : PlayerState) : PlayerState :=
  match st.currentSong with
  | none => st
  | some cur =>
    if st.playQueue.length = 0 then st
    else
      let i : Int := findIdxJS (keyMatches (songKey cur)) st.playQueue
      if i < (st.playQueue.length : Int) - 1 then
        { st with currentSong := st.playQueue.get? (i + 1).toNat }
      else st

/-- The playPrevious handler: return early when there is no current song or
the queue is empty; otherwise find the current index by composite key and,
when it is above 0, set the current song to the entry at index minus one. -/
def playPrevious (st : PlayerState) : PlayerState :=
  match st.currentSong with
  | none => st
  | some cur =>
    if st.playQueue.length = 0 then st
    else
      let i : Int := findIdxJS (keyMatches (songKey cur)) st.playQueue
      if i > 0 then
        { st with currentSong := st.playQueue.get? (i - 1).toNat }
      else st

/-- Position of the current song in the queue, as the code computes it:
the findIndex result on the composite key, or -1 with no current song. -/
def curIndex (st : PlayerState) : Int :=
  match st.currentSong with
  | none => -1
  | some cur => findIdxJS (keyMatches (songKey cur)) st.playQueue

/-- The snapshot recency test of the restore-on-mount effect:
Date.now() minus the stored timestamp is below five minutes in
milliseconds. -/
def isRecent (now ts : Int) : Bool :=
  now - ts < 5 * 60 * 1000

/-- The persisted snapshot record written to sessionStorage. -/
structure StoredSnapshot where
  isVisible : Bool
  songId : Option String
  timestamp : Int
deriving DecidableEq, Repr

/-- The restore-on-mount effect of MusicPlayerProvider: it reads the saved
snapshot and checks its recency, but both branches of the recency check
leave the React state untouched (the recent branch only keeps the
sessionStorage entry; restoration is left to the presentation layer). -/
def restoreOnMount (st : PlayerState) (saved : Option StoredSnapshot) (now : Int) : PlayerState :=
  match saved with
  | none => st
  | some snap => if isRecent now snap.timestamp then st else st

/-- The Song record of the HomeAfterLogin view (recommendation payload). -/
structure RecSong where
  title : String
  artist : String
  album : Option String := none
  spotifyUri : Option String := none
  url : Option String := none
  source : String
  emotion : Option String := none
  language : Option String := none
deriving DecidableEq, Repr

/-- JavaScript String.prototype.toLowerCase, applied characterwise. -/
def jsToLowerCase (s : String) : String :=
  String.mk (s.data.map Char.toLower)

/-- The fixed wellbeing trigger list declared in HomeAfterLogin. -/
def MENTAL_WELLBEING_TRIGGERS : List String :=
  ["sad", "depressed", "angry", "stressed", "fear", "anxious"]

/-- The React state of HomeAfterLogin touched by the mood-session
handlers. -/
structure HomeState where
  detectedEmotion : Option String
  selectedLanguage : String
  recommendations : List RecSong
  wellbeingMode : Bool
  loadingRecommendations : Bool
  showWellbeingPrompt : Bool
  showLanguageModal : Bool
  showFaceDetectionError : Bool
  isCapturing : Bool
deriving DecidableEq, Repr

/-- Initial HomeAfterLogin state for the fields modelled here. -/
def initialHomeState : HomeState :=
  { detectedEmotion := none, selectedLanguage := "", recommendations := [],
    wellbeingMode := false, loadingRecommendations := false,
    showWellbeingPrompt := false, showLanguageModal := false,
    showFaceDetectionError := false, isCapturing := false }

/-- The tail of capturePhoto after the camera stream is stopped: the
detection call either errors (catch branch: show the face-detection error
modal) or yields a result whose emotion field is checked for truthiness;
a truthy label is stored and routed through the wellbeing-trigger test,
a falsy one shows the face-detection error modal; the finally branch
clears the loading flag in every case. -/
def classifyStep (st : HomeState) (result : Except Unit (Option String)) : HomeState :=
  let st0 := { st with isCapturing := false }
  match result with
  | Except.ok eo =>
    if truthy eo then
      let e := eo.getD ""
      let st1 := { st0 with detectedEmotion := some e }
      if MENTAL_WELLBEING_TRIGGERS.contains (jsToLowerCase e) then
        { st1 with showWellbeingPrompt := true, loadingRecommendations := false }
      else
        { st1 with showLanguageModal := true, loadingRecommendations := false }
    else
      { st0 with showFaceDetectionError := true, loadingRecommendations := false }
  | Except.error _ =>
      { st0 with showFaceDetectionError := true, loadingRecommendations := false }

/-- The handleWellbeingChoice handler: store the binary choice, hide the
wellbeing prompt, open the language modal. -/
def handleWellbeingChoice (st : HomeState) (enable : Bool) : HomeState :=
  { st with wellbeingMode := enable, showWellbeingPrompt := false,
            showLanguageModal := true }

/-- The continuation of the recommendation call inside fetchRecommendations:
on success store the songs, on failure (catch branch) log and store the
empty list; the finally branch clears the loading flag in both cases.
It performs no check of any session counter before storing. -/
def applyFetchOutcome (st : HomeState) (gw : Except Unit (List RecSong)) : HomeState :=
  match gw with
  | Except.ok songs => { st with recommendations := songs, loadingRecommendations := false }
  | Except.error _ => { st with recommendations := [], loadingRecommendations := false }

/-- The fetchRecommendations handler: the gateway call is issued only when
both the emotion and the language arguments are truthy, and its outcome is
handled by applyFetchOutcome; otherwise the state is untouched. -/
def fetchRecommendations (st : HomeState) (emotion : Option String) (language : String)
    (wellbeing : Bool) (gw : Except Unit (List RecSong)) : HomeState :=
  if truthy emotion && language != "" then applyFetchOutcome st gw else st

/-- The onClick handler of the Detect Again button: clear the detected
emotion, the selected language, the recommendation list and the wellbeing
flag (the camera flow it then starts touches none of these fields). -/
def detectAgainReset (st : HomeState) : HomeState :=
  { st with detectedEmotion := none, selectedLanguage := "",
            recommendations := [], wellbeingMode := false }

/-- JavaScript String.prototype.startsWith, on the character list. -/
def jsStartsWith (s p : String) : Bool :=
  p.data.isPrefixOf s.data

/-- Removal of the first n characters of a string; this models the
replace call of getEmbedUrl, which under its startsWith guard strips
exactly the leading occurrence of the fourteen-character prefix. -/
def jsDropChars (s : String) (n : Nat) : String :=
  String.mk (s.data.drop n)

/-- Track-level Spotify embed URL built by getEmbedUrl. -/
def spotifyTrackEmbed (tid : String) : String :=
  "https://open.spotify.com/embed/track/" ++ tid ++ "?utm_source=generator&theme=0"

/-- Album-level Spotify embed URL built by getEmbedUrl. -/
def spotifyAlbumEmbed (aid : String) : String :=
  "https://open.spotify.com/embed/album/" ++ aid ++ "?utm_source=generator&theme=0"

/-- The getEmbedUrl resolver of the MusicPlayer component.  Inside the
Spotify branch, a URI of the form spotify:track:X yields trackId X
(the replace call strips the guarded leading occurrence, here the first
fourteen characters); otherwise a truthy spotifyId either answers an
album URI with an album embed and returns early, or becomes the trackId.
A truthy trackId yields the track embed, else a truthy spotifyId falls
back to the album embed, else the resolver yields null.  A JioSaavn
source with a truthy url yields that url; anything else yields null. -/
def getEmbedUrl (song : Song) : Option String :=
  if song.source == "Spotify" || truthy song.spotifyUri || truthy song.spotifyId then
    if truthy song.spotifyUri && jsStartsWith (song.spotifyUri.getD "") "spotify:track:" then
      let trackId := jsDropChars (song.spotifyUri.getD "") 14
      if trackId != "" then some (spotifyTrackEmbed trackId)
      else if truthy song.spotifyId then some (spotifyAlbumEmbed (song.spotifyId.getD ""))
      else none
    else if truthy song.spotifyId then
      if truthy song.spotifyUri && jsStartsWith (song.spotifyUri.getD "") "spotify:album:" then
        some (spotifyAlbumEmbed (jsDropChars (song.spotifyUri.getD "") 14))
      else
        some (spotifyTrackEmbed (song.spotifyId.getD ""))
    else none
  else if song.source == "JioSaavn" && truthy song.url then song.url
  else none

section FindIdxLemmas

variable {α : Type} {p : α → Bool}

theorem findIdxOpt_bounds : ∀ {l : List α} {i : Nat}, findIdxOpt p l = some i → i < l.length := by
  intro l
  induction l with
  | nil => intro i h; simp [findIdxOpt] at h
  | cons x xs ih =>
    intro i h
    simp only [findIdxOpt] at h
    by_cases hp : p x
    · simp [hp] at h
      simp [← h]
    · simp [hp, Option.map_eq_some'] at h
      obtain ⟨a, ha, hai⟩ := h
      have := ih ha
      simp only [List.length_cons]
      omega

theorem findIdxOpt_found : ∀ {l : List α} {i : Nat}, findIdxOpt p l = some i →
    ∃ x, l.get? i = some x ∧ p x = true := by
  intro l
  induction l with
  | nil => intro i h; simp [findIdxOpt] at h
  | cons x xs ih =>
    intro i h
    simp only [findIdxOpt] at h
    by_cases hp : p x
    · simp [hp] at h
      exact ⟨x, by simp [← h], hp⟩
    · simp [hp, Option.map_eq_some'] at h
      obtain ⟨a, ha, hai⟩ := h
      obtain ⟨y, hy, hpy⟩ := ih ha
      refine ⟨y, ?_, hpy⟩
      rw [← hai]
      simpa using hy

theorem findIdxOpt_first : ∀ {l : List α} {i : Nat}, findIdxOpt p l = some i →
    ∀ j y, j < i → l.get? j = some y → p y = false := by
  intro l
  induction l with
  | nil => intro i h; simp [findIdxOpt] at h
  | cons x xs ih =>
    intro i h j y hj hy
    simp only [findIdxOpt] at h
    by_cases hp : p x
    · simp [hp] at h
      omega
    · simp [hp, Option.map_eq_some'] at h
      obtain ⟨a, ha, hai⟩ := h
      match j with
      | 0 =>
        simp at hy
        simpa [← hy] using hp
      | Nat.succ j' =>
        have hj' : j' < a := by omega
        exact ih ha j' y hj' (by simpa using hy)

theorem findIdxOpt_isSome_of_mem : ∀ {l : List α} {x : α}, x ∈ l → p x = true →
    ∃ i, findIdxOpt p l = some i := by
  intro l
  induction l with
  | nil => intro x hx; simp at hx
  | cons z zs ih =>
    intro x hx hp
    simp only [findIdxOpt]
    by_cases hz : p z
    · exact ⟨0, by simp [hz]⟩
    · rcases List.mem_cons.mp hx with h | h
      · exact absurd (h ▸ hp) hz
      · obtain ⟨i, hi⟩ := ih h hp
        exact ⟨i + 1, by simp [hz, hi]⟩

theorem findIdxOpt_eq_none_iff : ∀ {l : List α},
    findIdxOpt p l = none ↔ ∀ x ∈ l, p x = false := by
  intro l
  induction l with
  | nil => simp [findIdxOpt]
  | cons x xs ih =>
    by_cases hp : p x
    · simp [findIdxOpt, hp]
    · simp [findIdxOpt, hp, Option.map_eq_none', ih]

end FindIdxLemmas

theorem keyMatches_self (x : Song) : keyMatches (songKey x) x = true := by
  simp [keyMatches]

theorem findIdxJS_mem_bounds {α : Type} (p : α → Bool) (l : List α) {x : α}
    (hx : x ∈ l) (hp : p x = true) :
    0 ≤ findIdxJS p l ∧ findIdxJS p l < (l.length : Int) := by
  obtain ⟨i, hi⟩ := findIdxOpt_isSome_of_mem hx hp
  have hb := findIdxOpt_bounds hi
  simp only [findIdxJS, hi]
  omega

theorem playNext_eq_step {st : PlayerState} {cur : Song} {i : Nat}
    (hcur : st.currentSong = some cur)
    (hfind : findIdxOpt (keyMatches (songKey cur)) st.playQueue = some i)
    (hlt : (i : Int) < (st.playQueue.length : Int) - 1) :
    playNext st = { st with currentSong := st.playQueue.get? (i + 1) } := by
  have hlen0 : ¬ st.playQueue.length = 0 := by
    have := findIdxOpt_bounds hfind
    omega
  have htn : (((i : Int) + 1)).toNat = i + 1 := by omega
  simp [playNext, hcur, findIdxJS, hfind, hlen0, hlt, htn]

theorem playNext_eq_self {st : PlayerState} {cur : Song} {i : Nat}
    (hcur : st.currentSong = some cur)
    (hfind : findIdxOpt (keyMatches (songKey cur)) st.playQueue = some i)
    (hge : ¬ ((i : Int) < (st.playQueue.length : Int) - 1)) :
    playNext st = st := by
  by_cases hlen0 : st.playQueue.length = 0
  · simp [playNext, hcur, hlen0]
  · simp [playNext, hcur, findIdxJS, hfind, hlen0, hge]

theorem playPrevious_eq_step {st : PlayerState} {cur : Song} {i : Nat}
    (hcur : st.currentSong = some cur)
    (hfind : findIdxOpt (keyMatches (songKey cur)) st.playQueue = some i)
    (hgt : (i : Int) > 0) :
    playPrevious st = { st with currentSong := st.playQueue.get? (i - 1) } := by
  have hlen0 : ¬ st.playQueue.length = 0 := by
    have := findIdxOpt_bounds hfind
    omega
  have htn : (((i : Int) - 1)).toNat = i - 1 := by omega
  simp [playPrevious, hcur, findIdxJS, hfind, hlen0, hgt, htn]

theorem playPrevious_eq_self {st : PlayerState} {cur : Song} {i : Nat}
    (hcur : st.currentSong = some cur)
    (hfind : findIdxOpt (keyMatches (songKey cur)) st.playQueue = some i)
    (hle : ¬ ((i : Int) > 0)) :
    playPrevious st = st := by
  by_cases hlen0 : st.playQueue.length = 0
  · simp [playPrevious, hcur, hlen0]
  · simp [playPrevious, hcur, findIdxJS, hfind, hlen0, hle]

theorem playNext_frame (st : PlayerState) :
    (playNext st).playQueue = st.playQueue ∧ (playNext st).showPlayer = st.showPlayer := by
  unfold playNext
  cases st.currentSong with
  | none => exact ⟨rfl, rfl⟩
  | some cur =>
    by_cases h0 : st.playQueue.length = 0
    · simp [h0]
    · by_cases hlt : findIdxJS (keyMatches (songKey cur)) st.playQueue <
          (st.playQueue.length : Int) - 1 <;> simp [h0, hlt]

theorem playPrevious_frame (st : PlayerState) :
    (playPrevious st).playQueue = st.playQueue ∧
    (playPrevious st).showPlayer = st.showPlayer := by
  unfold playPrevious
  cases st.currentSong with
  | none => exact ⟨rfl, rfl⟩
  | some cur =>
    by_cases h0 : st.playQueue.length = 0
    · simp [h0]
    · by_cases hgt : findIdxJS (keyMatches (songKey cur)) st.playQueue > 0 <;>
        simp [h0, hgt]

/-- Concrete track used by witnesses: a Spotify entry keyed by id a. -/
def songA : Song := { id := some "a", title := "A", artist := "ar", source := "Spotify" }

/-- Concrete track used by witnesses: a Spotify entry keyed by id b. -/
def songB : Song := { id := some "b", title := "B", artist := "ar", source := "Spotify" }

/-- Concrete track used by witnesses: a Spotify entry keyed by id c,
absent from the witness queue. -/
def songC : Song := { id := some "c", title := "C", artist := "ar", source := "Spotify" }

/-- Concrete two-entry queue used by witnesses. -/
def queueW : List Song := [songA, songB]

/-- C2, counterexample: calling playSong with an empty queue context leaves
the queue empty; it does not become the singleton list containing the
track, contrary to the claim. -/
theorem C2_counterexample :
    (playSong initialPlayerState songA []).playQueue = [] ∧
    (playSong initialPlayerState songA []).playQueue ≠ [songA] := by decide

/-- C2, amended: playSong sets the queue to exactly the given queue context
(an empty context yields an empty queue, with no singleton fallback), sets
the current song directly to the given track with no index lookup at play
time, and marks the player visible. -/
theorem C2_playSong_sets_state (st : PlayerState) (t : Song) (q : List Song) :
    playSong st t q =
      { currentSong := some t, showPlayer := true, playQueue := q } := rfl

/-- C10: playNext and playPrevious leave the queue contents and the player
visibility flag unchanged; only the current song may change. -/
theorem C10_next_previous_frame (st : PlayerState) :
    (playNext st).playQueue = st.playQueue ∧
    (playNext st).showPlayer = st.showPlayer ∧
    (playPrevious st).playQueue = st.playQueue ∧
    (playPrevious st).showPlayer = st.showPlayer :=
  ⟨(playNext_frame st).1, (playNext_frame st).2,
   (playPrevious_frame st).1, (playPrevious_frame st).2⟩

/-- C9: when the queue is non-empty and no entry matches the composite key
of the current song, the findIndex lookup yields -1 and playNext sets the
current song to the first entry of the queue. -/
theorem C9_lookup_miss_first_entry (st : PlayerState) (cur : Song)
    (hcur : st.currentSong = some cur) (hq : st.playQueue ≠ [])
    (hmiss : ∀ x ∈ st.playQueue, songKey x ≠ songKey cur) :
    (playNext st).currentSong = st.playQueue.head? := by
  have hnone : findIdxOpt (keyMatches (songKey cur)) st.playQueue = none := by
    rw [findIdxOpt_eq_none_iff]
    intro x hx
    simp [keyMatches]
    exact hmiss x hx
  have hlen : 0 < st.playQueue.length := List.length_pos.mpr hq
  have hlen0 : ¬ st.playQueue.length = 0 := by omega
  have hlt : (-1 : Int) < (st.playQueue.length : Int) - 1 := by omega
  have hpn : playNext st = { st with currentSong := st.playQueue.get? 0 } := by
    simp [playNext, hcur, findIdxJS, hnone, hlen0, hlt]
  rw [hpn]
  cases st.playQueue <;> rfl

/-- C9, witness: with current song c absent from the two-entry witness
queue, playNext lands on the first entry. -/
theorem C9_witness :
    (playNext { currentSong := some songC, showPlayer := true,
                playQueue := queueW } : PlayerState).currentSong =
      (queueW : List Song).head? :=
  C9_lookup_miss_first_entry
    { currentSong := some songC, showPlayer := true, playQueue := queueW }
    songC rfl (by decide) (by decide)

/-- C3: on a non-empty queue whose current song is found by the composite
key lookup, playNext and playPrevious keep the looked-up position inside
the interval from 0 to length - 1; playNext at the last index and
playPrevious at index 0 are no-ops that leave the whole state unchanged,
and there is no wraparound. -/
theorem C3_next_previous_clamped (st : PlayerState)
    (hq : st.playQueue ≠ []) (hc : 0 ≤ curIndex st) :
    (0 ≤ curIndex (playNext st) ∧
      curIndex (playNext st) < (st.playQueue.length : Int)) ∧
    (0 ≤ curIndex (playPrevious st) ∧
      curIndex (playPrevious st) < (st.playQueue.length : Int)) ∧
    (curIndex st = (st.playQueue.length : Int) - 1 → playNext st = st) ∧
    (curIndex st = 0 → playPrevious st = st) := by
  cases hcur : st.currentSong with
  | none => simp [curIndex, hcur] at hc
  | some cur =>
    cases hfind : findIdxOpt (keyMatches (songKey cur)) st.playQueue with
    | none => simp [curIndex, hcur, findIdxJS, hfind] at hc
    | some i =>
      have hilen := findIdxOpt_bounds hfind
      have hci : curIndex st = (i : Int) := by
        simp [curIndex, hcur, findIdxJS, hfind]
      have hnextb : 0 ≤ curIndex (playNext st) ∧
          curIndex (playNext st) < (st.playQueue.length : Int) := by
        by_cases hlt : (i : Int) < (st.playQueue.length : Int) - 1
        · have hstep := playNext_eq_step hcur hfind hlt
          obtain ⟨x, hx⟩ : ∃ x, st.playQueue.get? (i + 1) = some x :=
            ⟨_, List.get?_eq_get (by omega)⟩
          have hxmem : x ∈ st.playQueue := List.get?_mem hx
          have hb := findIdxJS_mem_bounds (keyMatches (songKey x)) st.playQueue
            hxmem (keyMatches_self x)
          have hx2 : st.playQueue[i + 1]? = some x := by simpa using hx
          rw [hstep]
          simpa [curIndex, hx2] using hb
        · rw [playNext_eq_self hcur hfind hlt, hci]
          omega
      have hprevb : 0 ≤ curIndex (playPrevious st) ∧
          curIndex (playPrevious st) < (st.playQueue.length : Int) := by
        by_cases hgt : (i : Int) > 0
        · have hstep := playPrevious_eq_step hcur hfind hgt
          obtain ⟨x, hx⟩ : ∃ x, st.playQueue.get? (i - 1) = some x :=
            ⟨_, List.get?_eq_get (by omega)⟩
          have hxmem : x ∈ st.playQueue := List.get?_mem hx
          have hb := findIdxJS_mem_bounds (keyMatches (songKey x)) st.playQueue
            hxmem (keyMatches_self x)
          have hx2 : st.playQueue[i - 1]? = some x := by simpa using hx
          rw [hstep]
          simpa [curIndex, hx2] using hb
        · rw [playPrevious_eq_self hcur hfind hgt, hci]
          omega
      refine ⟨hnextb, hprevb, ?_, ?_⟩
      · intro hlast
        rw [hci] at hlast
        exact playNext_eq_self hcur hfind (by omega)
      · intro hzero
        rw [hci] at hzero
        exact playPrevious_eq_self hcur hfind (by omega)

/-- Concrete player state used by witnesses: current song at index 0 of
the two-entry witness queue, player visible. -/
def stW : PlayerState :=
  { currentSong := some songA, showPlayer := true, playQueue := queueW }

/-- C3, witness: on the concrete two-entry queue with the current song at
index 0, the position after playNext stays inside the interval. -/
theorem C3_witness :
    0 ≤ curIndex (playNext stW) ∧
    curIndex (playNext stW) < (stW.playQueue.length : Int) :=
  (C3_next_previous_clamped stW (by decide) (by decide)).1

/-- C8: the composite-key lookup used by the queue manager returns the
index of the first entry whose key matches; in particular, when an entry
at index j matches and every earlier entry misses, the result is exactly
j (deterministic first occurrence under duplicates), and when the keys in
the queue are pairwise distinct the result is the unique index of the
looked-up track. -/
theorem C8_composite_key_lookup :
    (∀ (q : List Song) (k : Option String) (j : Nat) (x : Song),
        q.get? j = some x → songKey x = k →
        (∀ l y, l < j → q.get? l = some y → songKey y ≠ k) →
        findIdxJS (keyMatches k) q = (j : Int)) ∧
    (∀ (q : List Song) (j : Nat) (x : Song),
        q.get? j = some x →
        (∀ a b ya yb, q.get? a = some ya → q.get? b = some yb → a ≠ b →
            songKey ya ≠ songKey yb) →
        findIdxJS (keyMatches (songKey x)) q = (j : Int)) := by
  have hfirst : ∀ (q : List Song) (k : Option String) (j : Nat) (x : Song),
      q.get? j = some x → songKey x = k →
      (∀ l y, l < j → q.get? l = some y → songKey y ≠ k) →
      findIdxJS (keyMatches k) q = (j : Int) := by
    intro q k j x hx hk hmiss
    have hxmem : x ∈ q := List.get?_mem hx
    have hpx : keyMatches k x = true := by simp [keyMatches, hk]
    obtain ⟨i, hi⟩ := findIdxOpt_isSome_of_mem hxmem hpx
    obtain ⟨z, hz, hpz⟩ := findIdxOpt_found hi
    have hij : ¬ i < j := by
      intro hl
      have := hmiss i z hl hz
      simp [keyMatches] at hpz
      exact this hpz
    have hji : ¬ j < i := by
      intro hl
      have := findIdxOpt_first hi j x hl hx
      rw [hpx] at this
      exact Bool.noConfusion this
    have : i = j := by omega
    simp [findIdxJS, hi, this]
  refine ⟨hfirst, ?_⟩
  intro q j x hx huniq
  refine hfirst q (songKey x) j x hx rfl ?_
  intro l y hl hy
  exact huniq l j y x hy hx (by omega)

/-- C8, witness: in the concrete two-entry queue with distinct keys, the
lookup of the second entry returns index 1. -/
theorem C8_witness : findIdxJS (keyMatches (songKey songB)) queueW = (1 : Int) :=
  C8_composite_key_lookup.2 queueW 1 songB rfl (by
    intro a b ya yb ha hb hab
    have ha2 : a < 2 := by
      by_contra hge
      rw [List.get?_eq_none.mpr (by simp [queueW]; omega)] at ha
      exact Option.noConfusion ha
    have hb2 : b < 2 := by
      by_contra hge
      rw [List.get?_eq_none.mpr (by simp [queueW]; omega)] at hb
      exact Option.noConfusion hb
    interval_cases a <;> interval_cases b <;>
      [exact absurd rfl hab; skip; skip; exact absurd rfl hab] <;>
      simp [queueW] at ha hb <;> subst ha <;> subst hb <;> decide)

/-- Concrete recommendation entry used by witnesses. -/
def recSongW : RecSong := { title := "R", artist := "ar", source := "Spotify" }

/-- Concrete Ready-state of a first capture cycle used by witnesses. -/
def readyStateW : HomeState :=
  { initialHomeState with detectedEmotion := some "happy",
                          selectedLanguage := "English" }

/-- C1, counterexample: a recommendation response that resolves after the
Detect Again reset is applied to state and populates the recommendation
list of the new cycle, instead of being discarded as the claim states. -/
theorem C1_counterexample :
    (applyFetchOutcome (detectAgainReset readyStateW)
        (Except.ok [recSongW])).recommendations = [recSongW] ∧
    (applyFetchOutcome (detectAgainReset readyStateW)
        (Except.ok [recSongW])).recommendations ≠ [] := by decide

/-- C1, amended: the resolution handler of a recommendation call carries no
generation tag and performs no staleness check, so a response resolving
after the Detect Again reset unconditionally overwrites the recommendation
list of the new cycle with its payload. -/
theorem C1_stale_response_applied (st : HomeState) (songs : List RecSong) :
    applyFetchOutcome (detectAgainReset st) (Except.ok songs) =
      { detectAgainReset st with recommendations := songs,
                                 loadingRecommendations := false } := rfl

/-- C5: a truthy emotion label whose lowercase form is in the fixed
wellbeing trigger list routes the session to the wellbeing prompt first
(the language modal stays closed until the wellbeing choice opens it),
while any other label opens the language modal directly. -/
theorem C5_wellbeing_routing (st : HomeState) (e : String) (he : e ≠ "")
    (hw : st.showWellbeingPrompt = false) (hl : st.showLanguageModal = false) :
    (MENTAL_WELLBEING_TRIGGERS.contains (jsToLowerCase e) = true →
      (classifyStep st (Except.ok (some e))).showWellbeingPrompt = true ∧
      (classifyStep st (Except.ok (some e))).showLanguageModal = false ∧
      ∀ b : Bool,
        (handleWellbeingChoice (classifyStep st (Except.ok (some e)))
            b).showLanguageModal = true ∧
        (handleWellbeingChoice (classifyStep st (Except.ok (some e)))
            b).showWellbeingPrompt = false) ∧
    (MENTAL_WELLBEING_TRIGGERS.contains (jsToLowerCase e) = false →
      (classifyStep st (Except.ok (some e))).showLanguageModal = true ∧
      (classifyStep st (Except.ok (some e))).showWellbeingPrompt = false) := by
  have ht : truthy (some e) = true := by simp [truthy, he]
  constructor
  · intro hct
    have hmem : jsToLowerCase e ∈ MENTAL_WELLBEING_TRIGGERS := by simpa using hct
    simp [classifyStep, handleWellbeingChoice, ht, hmem, hl]
  · intro hct
    have hmem : jsToLowerCase e ∉ MENTAL_WELLBEING_TRIGGERS := by simpa using hct
    simp [classifyStep, ht, hmem, hw]

/-- C5, witness: the label stressed is in the trigger list and opens the
wellbeing prompt from the initial state. -/
theorem C5_witness :
    (classifyStep initialHomeState
        (Except.ok (some "stressed"))).showWellbeingPrompt = true :=
  (((C5_wellbeing_routing initialHomeState "stressed" (by decide) rfl rfl).1)
    (by decide)).1

/-- C6: when the recommendation gateway call fails, fetchRecommendations
stores the empty list and clears the loading flag (the Ready presentation);
the catch branch only logs, so the handler returns this state instead of
propagating the failure. -/
theorem C6_gateway_failure_degrades (st : HomeState) (emotion : Option String)
    (language : String) (w : Bool)
    (he : truthy emotion = true) (hl : language ≠ "") :
    fetchRecommendations st emotion language w (Except.error ()) =
      { st with recommendations := [], loadingRecommendations := false } := by
  simp [fetchRecommendations, applyFetchOutcome, he, hl]

/-- C6, witness: a failing gateway call from the concrete Ready state
yields the empty recommendation list with loading cleared. -/
theorem C6_witness :
    fetchRecommendations readyStateW (some "happy") "English" false
        (Except.error ()) =
      { readyStateW with recommendations := [], loadingRecommendations := false } :=
  C6_gateway_failure_degrades readyStateW (some "happy") "English" false
    (by decide) (by decide)

theorem spotifyTrackEmbed_ne_albumEmbed (x y : String) :
    spotifyTrackEmbed x ≠ spotifyAlbumEmbed y := by
  intro h
  have hd := congrArg String.data h
  simp only [spotifyTrackEmbed, spotifyAlbumEmbed, String.data_append] at hd
  rw [List.append_assoc, List.append_assoc] at hd
  have hpre := List.append_inj_left hd (by decide)
  exact absurd hpre (by decide)

/-- C4: a track whose Spotify URI starts with the track scheme and carries
a non-empty track id resolves to the track-level embed URL, even when a
collection-scoped spotifyId is also present; the result is never any
album-level embed URL. -/
theorem C4_track_over_collection (s : Song)
    (huri : truthy s.spotifyUri = true)
    (hstart : jsStartsWith (s.spotifyUri.getD "") "spotify:track:" = true)
    (htid : jsDropChars (s.spotifyUri.getD "") 14 ≠ "")
    (hcol : truthy s.spotifyId = true) :
    getEmbedUrl s =
      some (spotifyTrackEmbed (jsDropChars (s.spotifyUri.getD "") 14)) ∧
    ∀ aid : String, getEmbedUrl s ≠ some (spotifyAlbumEmbed aid) := by
  have heq : getEmbedUrl s =
      some (spotifyTrackEmbed (jsDropChars (s.spotifyUri.getD "") 14)) := by
    simp [getEmbedUrl, huri, hstart, htid]
  refine ⟨heq, ?_⟩
  intro aid hbad
  rw [heq] at hbad
  have := Option.some.inj hbad
  exact absurd this (spotifyTrackEmbed_ne_albumEmbed _ aid)

/-- Concrete track carrying both a track-scoped URI and a collection-scoped
id, used by the C4 witness. -/
def songBothW : Song :=
  { title := "T", artist := "ar", source := "Spotify",
    spotifyUri := some "spotify:track:abc", spotifyId := some "zzz" }

/-- C4, witness: the concrete track with both identifiers resolves to the
track-level embed URL. -/
theorem C4_witness :
    getEmbedUrl songBothW =
      some (spotifyTrackEmbed (jsDropChars (songBothW.spotifyUri.getD "") 14)) :=
  (C4_track_over_collection songBothW (by decide) (by decide) (by decide)
    (by decide)).1

/-- C7: the snapshot recency check accepts a snapshot read strictly less
than 300 seconds after it was written (in particular at 299 seconds),
rejects it at 301 seconds, and the restore-on-mount effect never changes
the player state, so a stale snapshot never produces a visible player. -/
theorem C7_snapshot_ttl :
    (∀ T d : Int, 0 ≤ d → d < 300000 → isRecent (T + d) T = true) ∧
    (∀ T : Int, isRecent (T + 299000) T = true) ∧
    (∀ T : Int, isRecent (T + 301000) T = false) ∧
    (∀ (st : PlayerState) (saved : Option StoredSnapshot) (now : Int),
        restoreOnMount st saved now = st) := by
  refine ⟨?_, ?_, ?_, ?_⟩
  · intro T d h0 h3
    simp only [isRecent, decide_eq_true_eq]
    omega
  · intro T
    simp only [isRecent, decide_eq_true_eq]
    omega
  · intro T
    simp only [isRecent, decide_eq_false_iff_not]
    omega
  · intro st saved now
    cases saved with
    | none => rfl
    | some snap => simp [restoreOnMount]

/-- C7, witness: a snapshot written at time 0 is still recent when read at
299 seconds. -/
theorem C7_witness : isRecent (0 + 299000) 0 = true :=
  C7_snapshot_ttl.1 0 299000 (by decide) (by decide)

end MoodTune
